/-
Verification of the Session Keeper browser extension (background scheduler,
popup controller, content-page actuator) against its design specification.

The embedding follows the current sources:
  * the background service worker (alarm scheduling, start/stop message
    handling, content-change fingerprinting via simpleHash),
  * the content script (clickElements),
  * the popup controller (validateForm / handleStart).

Browser-host effects (storage.local, alarms, action icon, notifications) are
modelled as fields of an explicit scheduler state record; a one-shot alarm
created with a delay is modelled by an `Option` field holding the configured
interval in seconds (the code passes interval/60 to the minutes-based alarm
API, which is a pure unit conversion).  JavaScript numbers produced by
parseInt are modelled by `JSNum`: an integer or NaN.
-/
import Mathlib

namespace SessionKeeper

/-- A JavaScript number as produced by parseInt with radix 10: either an
integer value or NaN (no digits could be parsed). -/
inductive JSNum where
  | int (n : Int)
  | nan
deriving DecidableEq, Repr

/-- JS comparison `x < m` for an integer literal `m`: any comparison with
NaN is false. -/
def JSNum.ltInt : JSNum → Int → Bool
  | .int n, m => n < m
  | .nan, _ => false

/-- JS comparison `x > m` for an integer literal `m`: any comparison with
NaN is false. -/
def JSNum.gtInt : JSNum → Int → Bool
  | .int n, m => m < n
  | .nan, _ => false

/-- JS truthiness of a number: 0 and NaN are falsy, every other number is
truthy.  Used by the `if (config?.interval)` re-arming guard. -/
def JSNum.truthy : JSNum → Bool
  | .int n => n != 0
  | .nan => false

/-- JavaScript ToInt32 (the effect of `|0`): reduce an integer to the
signed 32-bit representative in [-2^31, 2^31). -/
def toInt32 (n : Int) : Int := (n + 2 ^ 31) % 2 ^ 32 - 2 ^ 31

/-- JavaScript `n << 5`: ToInt32 of the operand, multiplied by 2^5, with the
result wrapped back to a signed 32-bit integer. -/
def jsShl5 (n : Int) : Int := toInt32 (toInt32 n * 2 ^ 5)

/-- Function `simpleHash` from the background script, on the sequence of
UTF-16 char codes of the string (`charCodeAt`):

    let hash = 0;
    for (...) { hash = (hash << 5) - hash + char; hash |= 0; }
    return hash;
-/
def simpleHash (codes : List Nat) : Int :=
  codes.foldl (fun hash char => toInt32 (jsShl5 hash - hash + (char : Int))) 0

/-- The rolling hash as the specification words it: the left fold of
`h ↦ 31·h + code`, each step reduced to a signed 32-bit integer via `|0`.
Stated from the spec for comparison with `simpleHash`. -/
def specRollingHash (codes : List Nat) : Int :=
  codes.foldl (fun hash char => toInt32 (31 * hash + (char : Int))) 0

/-- The stored configuration record built by the background start handler:
mode, selectors, interval (seconds), notifyOnChange, stopOnChange. -/
structure Config where
  mode : String
  selectors : List String
  interval : JSNum
  notifyOnChange : Bool
  stopOnChange : Bool
deriving DecidableEq, Repr

/-- A runtime message as received by the background `handleMessage`: a
dynamic record whose `action` field selects the behavior; the remaining
fields are only read on the start path. -/
structure Request where
  action : String
  mode : String
  selectors : List String
  interval : JSNum
  notifyOnChange : Bool
  stopOnChange : Bool
deriving DecidableEq, Repr

/-- The content-fingerprint table `contentHashes`: a finite mapping from a
tab identifier to the last observed 32-bit hash, as a key-ordered
association list mirroring the insertion-ordered keys of a JS object. -/
abbrev HashTable := List (Nat × Int)

/-- Read `contentHashes[tabId]`; `none` models `undefined`. -/
def lookupHash : HashTable → Nat → Option Int
  | [], _ => none
  | (k, v) :: rest, t => if k = t then some v else lookupHash rest t

/-- Write `contentHashes[tabId] = h`: overwrite the existing entry in place
or append a new one, as JS object assignment does. -/
def setHash : HashTable → Nat → Int → HashTable
  | [], t, h => [(t, h)]
  | (k, v) :: rest, t, h =>
      if k = t then (t, h) :: rest else (k, v) :: setHash rest t h

/-- The scheduler-visible persistent and host state: the storage keys
`isActive`, `config`, `contentHashes`, whether the named one-shot alarm is
armed (holding the interval, in seconds, it was created from), and the
active styling of the action icon. -/
structure SchedState where
  isActive : Bool
  config : Option Config
  contentHashes : HashTable
  alarm : Option JSNum
  iconActive : Bool
deriving DecidableEq, Repr

/-- Function `stopAction` from the background script: clear the named alarm, persist
`isActive = false` with an empty `contentHashes` table, and switch the icon
to inactive styling.  The stored `config` is left in place. -/
def stopAction (s : SchedState) : SchedState :=
  { s with alarm := none, isActive := false, contentHashes := [], iconActive := false }

/-- The background `handleMessage`: on `action = "start"` build the config
from the five payload fields of the request, persist it with `isActive = true`
and an empty fingerprint table, create the named alarm from the interval,
and switch the icon to active styling; on `action = "stop"` run
`stopAction`; otherwise do nothing. -/
def handleMessage (s : SchedState) (req : Request) : SchedState :=
  if req.action = "start" then
    let config : Config :=
      { mode := req.mode
        selectors := req.selectors
        interval := req.interval
        notifyOnChange := req.notifyOnChange
        stopOnChange := req.stopOnChange }
    { s with
        isActive := true
        config := some config
        contentHashes := []
        alarm := some config.interval
        iconActive := true }
  else if req.action = "stop" then
    stopAction s
  else
    s

/-- The state-changing part of `performAction`: if no config is stored,
self-heal by running `stopAction`; otherwise the reload / click-message
effects touch only the page, not the scheduler state.  The deferred
content check is modelled separately by `contentCheck`. -/
def performActionStep (s : SchedState) (activeTab : Option Nat) : SchedState :=
  match s.config with
  | none => stopAction s
  | some _ =>
      match activeTab with
      | none => s
      | some _ => s

/-- The alarm name constant `ALARM_NAME`. -/
def ALARM_NAME : String := "session-keeper-alarm"

/-- Body of `handleAlarm` for a fired alarm: if the name matches, run
`performAction`, then re-read the config and, when `config?.interval` is
truthy, create the next one-shot occurrence from the stored interval. -/
def handleAlarm (s : SchedState) (alarmName : String) (activeTab : Option Nat) : SchedState :=
  if alarmName = ALARM_NAME then
    let s1 := performActionStep s activeTab
    match s1.config with
    | some c => if c.interval.truthy then { s1 with alarm := some c.interval } else s1
    | none => s1
  else
    s

/-- A firing of the named alarm of the scheduler.  An alarm created with only a
delay is one-shot: the host removes it when it fires (which is exactly why
`handleAlarm` re-creates it each cycle), so the step first disarms the
alarm field and then runs the handler. -/
def alarmFire (s : SchedState) (activeTab : Option Nat) : SchedState :=
  handleAlarm { s with alarm := none } ALARM_NAME activeTab

/-- Notification title raised when `notifyOnChange` observes a change. -/
def changeNotice : String := "Session Keeper: Content Changed"

/-- Notification title raised after `stopOnChange` tears the session down. -/
def stoppedNotice : String := "Session Keeper: Stopped"

/-- Result of the deferred content check: the scheduler state afterwards
and the titles of the notifications raised, in order. -/
structure CheckOutcome where
  state : SchedState
  notifications : List String
deriving DecidableEq, Repr

/-- The deferred content check scheduled by `performAction` (the 2-second
setTimeout callback).  `config` and `captured` are the config and
`contentHashes` the closure captured when `performAction` read storage;
`sample` is `document.body.innerText` as char codes, `none` when the
injected script returned no result or threw.

On a sample: hash it; when a previous fingerprint exists and differs,
raise the change notification if `notifyOnChange`, and if `stopOnChange`
run `stopAction`, raise the stopped notification and return early without
persisting the new hash; in every other case persist the new hash as the
baseline for the tab. -/
def contentCheck (s : SchedState) (config : Config) (captured : HashTable)
    (tabId : Nat) (sample : Option (List Nat)) : CheckOutcome :=
  match sample with
  | none => ⟨s, []⟩
  | some text =>
      let newHash := simpleHash text
      let oldHash := lookupHash captured tabId
      if oldHash ≠ none ∧ oldHash ≠ some newHash then
        let notifs := if config.notifyOnChange then [changeNotice] else []
        if config.stopOnChange then
          ⟨stopAction s, notifs ++ [stoppedNotice]⟩
        else
          ⟨{ s with contentHashes := setHash captured tabId newHash }, notifs⟩
      else
        ⟨{ s with contentHashes := setHash captured tabId newHash }, []⟩

/-- The externally triggered operations of the scheduler: a runtime message, a
firing of the named alarm, and the onInstalled/onStartup initialization
(both of which run `stopAction`). -/
inductive Op where
  | msg (req : Request)
  | fire (activeTab : Option Nat)
  | init
deriving Repr

/-- One step of the state machine of the scheduler. -/
def step (s : SchedState) (op : Op) : SchedState :=
  match op with
  | .msg req => handleMessage s req
  | .fire tab => alarmFire s tab
  | .init => stopAction s

/-- The Activity State invariant of the spec: `isActive = true` implies the
stored config is present and the recurring timer is armed. -/
def inv (s : SchedState) : Prop :=
  s.isActive = true → s.config.isSome = true ∧ s.alarm.isSome = true

instance (s : SchedState) : Decidable (inv s) := by
  unfold inv; infer_instance

/-! ## Content script: clickElements -/

/-- Outcome of `document.querySelector(selector)` on the current page:
the first matching element, no match (null), or a thrown error (for a
syntactically invalid selector). -/
inductive QueryOutcome where
  | found (el : Nat)
  | missing
  | err (msg : String)
deriving DecidableEq, Repr

/-- The body of the `selectors.forEach` loop of `clickElements`, iterated
down the list: each iteration looks the selector up in its own try/catch;
a found element is clicked (recorded), a miss is logged, a thrown error is
caught — and in every case the loop continues with the rest. -/
def clickLoop (dom : String → QueryOutcome) : List String → List Nat
  | [] => []
  | sel :: rest =>
      match dom sel with
      | .found el => el :: clickLoop dom rest
      | .missing => clickLoop dom rest
      | .err _ => clickLoop dom rest

/-- Function `clickElements` from the content script: reject a non-array or empty
selector list with a warning, otherwise run the forEach loop; returns the
elements clicked, in order. -/
def clickElements (dom : String → QueryOutcome) (selectors : List String) : List Nat :=
  if selectors.isEmpty then [] else clickLoop dom selectors

/-- What a single selector contributes to the click run: the first
matching element, if the lookup finds one. -/
def clickOutcome (dom : String → QueryOutcome) (sel : String) : Option Nat :=
  match dom sel with
  | .found el => some el
  | .missing => none
  | .err _ => none

/-! ## Popup controller: validateForm / handleStart -/

/-- JS `parseInt(str, 10)`: skip leading whitespace, read an optional
sign, then the longest run of decimal digits, ignoring trailing
characters; NaN (`none`) when no digit follows. -/
def parseIntJS (str : String) : Option Int :=
  let cs := str.toList.dropWhile Char.isWhitespace
  let signed : Int × List Char :=
    match cs with
    | '-' :: rest => (-1, rest)
    | '+' :: rest => (1, rest)
    | _ => (1, cs)
  let digits := signed.2.takeWhile Char.isDigit
  if digits.isEmpty then none
  else some (signed.1 * (digits.foldl (fun acc c => acc * 10 + ((c.toNat : Int) - 48)) 0))

/-- JS split on commas, over the characters of the string: cut at every comma,
keeping empty pieces (an accumulator carries the current piece reversed). -/
def jsSplitComma : List Char → List Char → List (List Char)
  | [], acc => [acc.reverse]
  | c :: rest, acc =>
      if c = ',' then acc.reverse :: jsSplitComma rest []
      else jsSplitComma rest (c :: acc)

/-- JS `s.trim()`: strip whitespace from both ends. -/
def trimChars (cs : List Char) : List Char :=
  ((cs.dropWhile Char.isWhitespace).reverse.dropWhile Char.isWhitespace).reverse

/-- Selector parsing in the popup: split the value on commas, trim each
piece, and keep the non-empty (truthy) pieces. -/
def splitSelectors (value : String) : List String :=
  (((jsSplitComma value.toList []).map fun cs => (trimChars cs).asString).filter
    fun s => s ≠ "")

/-- Raw inputs of the popup form as read by `validateForm`: the mode
select, the interval and selectors text fields, and the two checkboxes. -/
structure FormInput where
  mode : String
  intervalText : String
  selectorsText : String
  notifyOnChange : Bool
  stopOnChange : Bool
deriving DecidableEq, Repr

/-- Result of `validateForm`: either invalid with the inline error message
shown, or valid with the config to send. -/
inductive ValidationResult where
  | invalid (errorMsg : String)
  | valid (config : Config)
deriving DecidableEq, Repr

/-- Function `validateForm` from the popup controller: parse the interval and the
selector list; reject interval < 5, then interval > 18000, then click
mode with an empty selector list, each with its inline message; otherwise
return the config. -/
def validateForm (form : FormInput) : ValidationResult :=
  let interval : JSNum :=
    match parseIntJS form.intervalText with
    | some n => .int n
    | none => .nan
  let selectors := splitSelectors form.selectorsText
  if interval.ltInt 5 then
    .invalid "Interval must be at least 5 seconds."
  else if interval.gtInt 18000 then
    .invalid "Interval cannot be more than 18000 seconds (5 hours)."
  else if form.mode = "click" && selectors.isEmpty then
    .invalid "Please provide at least one CSS selector for click mode."
  else
    .valid
      { mode := form.mode
        selectors := selectors
        interval := interval
        notifyOnChange := form.notifyOnChange
        stopOnChange := form.stopOnChange }

/-- Function `handleStart` from the popup controller: validate; on failure send
nothing (the inline error stays shown); on success send exactly one
start message spreading the validated config. -/
def handleStart (form : FormInput) : Option Request :=
  match validateForm form with
  | .invalid _ => none
  | .valid c =>
      some
        { action := "start"
          mode := c.mode
          selectors := c.selectors
          interval := c.interval
          notifyOnChange := c.notifyOnChange
          stopOnChange := c.stopOnChange }

/-! ## Arithmetic facts about toInt32 and simpleHash -/

/-- Writing the hash of a tab and reading it back yields that hash. -/
theorem lookupHash_setHash_self (tbl : HashTable) (t : Nat) (h : Int) :
    lookupHash (setHash tbl t h) t = some h := by
  induction tbl with
  | nil => simp [setHash, lookupHash]
  | cons kv rest ih =>
      obtain ⟨k, v⟩ := kv
      by_cases hk : k = t
      · simp [setHash, lookupHash, hk]
      · simp [setHash, lookupHash, hk, ih]

/-- The forEach loop attempts every selector: its run is the filterMap of
the individual outcome of each selector. -/
theorem clickLoop_eq_filterMap (dom : String → QueryOutcome) (l : List String) :
    clickLoop dom l = l.filterMap (clickOutcome dom) := by
  induction l with
  | nil => rfl
  | cons sel rest ih =>
      cases hd : dom sel <;>
        simp [clickLoop, clickOutcome, hd, ih, List.filterMap_cons]

/-- Every stopped state satisfies the Activity State invariant. -/
theorem inv_stopAction (s : SchedState) : inv (stopAction s) := by
  intro hact
  simp [stopAction] at hact

/-- Any runtime message preserves the Activity State invariant, with no
side condition: a start message installs a config and arms the alarm, a
stop message deactivates, and any other message leaves the state alone. -/
theorem inv_handleMessage (s : SchedState) (req : Request) (h : inv s) :
    inv (handleMessage s req) := by
  unfold handleMessage
  split_ifs with h1 h2
  · intro _
    exact ⟨rfl, rfl⟩
  · exact inv_stopAction s
  · exact h

/-- An alarm firing preserves the Activity State invariant provided any
stored config has a truthy interval (so the re-arming guard fires). -/
theorem inv_alarmFire (s : SchedState) (tab : Option Nat) (_h : inv s)
    (htr : ∀ c, s.config = some c → c.interval.truthy = true) :
    inv (alarmFire s tab) := by
  cases hc : s.config with
  | none =>
      have heq : alarmFire s tab = stopAction { s with alarm := none } := by
        cases tab <;>
          simp [alarmFire, handleAlarm, performActionStep, ALARM_NAME, hc, stopAction]
      rw [heq]
      exact inv_stopAction _
  | some c =>
      have ht := htr c hc
      have heq : alarmFire s tab = { s with alarm := some c.interval } := by
        cases tab <;>
          simp [alarmFire, handleAlarm, performActionStep, ALARM_NAME, hc, ht]
      rw [heq]
      intro _
      simp [hc]

/-- The config-present half of the invariant is preserved by every
operation with no side condition: no operation ever removes the stored
config while leaving the state active. -/
theorem config_present_step (s : SchedState) (op : Op)
    (h : s.isActive = true → s.config.isSome = true) :
    (step s op).isActive = true → (step s op).config.isSome = true := by
  cases op with
  | msg req =>
      show (handleMessage s req).isActive = true → (handleMessage s req).config.isSome = true
      unfold handleMessage
      split_ifs with h1 h2
      · intro _
        rfl
      · intro hact
        simp [stopAction] at hact
      · exact h
  | fire tab =>
      cases hc : s.config with
      | none =>
          have heq : step s (.fire tab) = stopAction { s with alarm := none } := by
            cases tab <;>
              simp [step, alarmFire, handleAlarm, performActionStep, ALARM_NAME, hc,
                stopAction]
          rw [heq]
          intro hact
          simp [stopAction] at hact
      | some c =>
          by_cases ht : c.interval.truthy = true
          · have heq : step s (.fire tab) = { s with alarm := some c.interval } := by
              cases tab <;>
                simp [step, alarmFire, handleAlarm, performActionStep, ALARM_NAME, hc, ht]
            rw [heq]
            intro _
            simp [hc]
          · have heq : step s (.fire tab) = { s with alarm := none } := by
              cases tab <;>
                simp [step, alarmFire, handleAlarm, performActionStep, ALARM_NAME, hc, ht]
            rw [heq]
            intro _
            simp [hc]
  | init =>
      intro hact
      simp [step, stopAction] at hact

theorem toInt32_lb (n : Int) : -2 ^ 31 ≤ toInt32 n := by
  unfold toInt32; omega

theorem toInt32_ub (n : Int) : toInt32 n < 2 ^ 31 := by
  unfold toInt32; omega

theorem toInt32_dvd_sub (n : Int) : (2 ^ 32 : Int) ∣ (toInt32 n - n) := by
  unfold toInt32; omega

theorem toInt32_congr {a b : Int} (h : (2 ^ 32 : Int) ∣ (a - b)) :
    toInt32 a = toInt32 b := by
  unfold toInt32; omega

/-- One step of the hash loop agrees with the `31·h + code` step of the spec:
`(h << 5) - h + c`, reduced via `|0`, equals `31·h + c` reduced via `|0`. -/
theorem simpleHash_step_eq (h c : Int) :
    toInt32 (jsShl5 h - h + c) = toInt32 (31 * h + c) := by
  apply toInt32_congr
  unfold jsShl5
  obtain ⟨k1, hk1⟩ := toInt32_dvd_sub (toInt32 h * 2 ^ 5)
  obtain ⟨k2, hk2⟩ := toInt32_dvd_sub h
  exact ⟨k1 + 2 ^ 5 * k2, by linarith⟩

theorem simpleHash_foldl_range (codes : List Nat) :
    ∀ h : Int, -2 ^ 31 ≤ h → h < 2 ^ 31 →
      -2 ^ 31 ≤ codes.foldl (fun hash char => toInt32 (jsShl5 hash - hash + (char : Int))) h ∧
      codes.foldl (fun hash char => toInt32 (jsShl5 hash - hash + (char : Int))) h < 2 ^ 31 := by
  induction codes with
  | nil => intro h h1 h2; exact ⟨h1, h2⟩
  | cons c rest ih =>
      intro h _ _
      simpa using ih (toInt32 (jsShl5 h - h + (c : Int)))
        (toInt32_lb _) (toInt32_ub _)

end SessionKeeper

/-- Claim C9: simpleHash computes a 32-bit rolling hash — it equals the
left fold over the char codes of the string of `h ↦ 31·h + code` with each step
reduced to a signed 32-bit integer via `|0`, so the result always lies in
`[-2^31, 2^31)`, and the hash of the empty string is 0. -/
theorem C9_simpleHash_rolling (codes : List Nat) :
    SessionKeeper.simpleHash codes = SessionKeeper.specRollingHash codes ∧
    -2 ^ 31 ≤ SessionKeeper.simpleHash codes ∧
    SessionKeeper.simpleHash codes < 2 ^ 31 ∧
    SessionKeeper.simpleHash [] = 0 := by
  refine ⟨?_, ?_, ?_, rfl⟩
  · unfold SessionKeeper.simpleHash SessionKeeper.specRollingHash
    congr 1
    funext h c
    exact SessionKeeper.simpleHash_step_eq h (c : Int)
  · exact (SessionKeeper.simpleHash_foldl_range codes 0 (by norm_num) (by norm_num)).1
  · exact (SessionKeeper.simpleHash_foldl_range codes 0 (by norm_num) (by norm_num)).2

/-- Claim C1: after the background message handler processes a start
message, the persisted state has `isActive = true`, the stored config
equals the payload minus the action field (mode, selectors, interval,
notifyOnChange, stopOnChange all preserved), and `contentHashes` is reset
to the empty mapping. -/
theorem C1_start_persists (s : SessionKeeper.SchedState) (req : SessionKeeper.Request)
    (h : req.action = "start") :
    (SessionKeeper.handleMessage s req).isActive = true ∧
    (SessionKeeper.handleMessage s req).config =
      some
        { mode := req.mode
          selectors := req.selectors
          interval := req.interval
          notifyOnChange := req.notifyOnChange
          stopOnChange := req.stopOnChange } ∧
    (SessionKeeper.handleMessage s req).contentHashes = [] := by
  simp [SessionKeeper.handleMessage, h]

/-- Witness for C1 at a concrete start payload. -/
theorem C1_start_persists_witness :
    (SessionKeeper.Request.mk "start" "click" [".btn-refresh"] (.int 300) true false).action
        = "start" ∧
    ((SessionKeeper.handleMessage
        ⟨false, none, [(3, 42)], none, false⟩
        (SessionKeeper.Request.mk "start" "click" [".btn-refresh"] (.int 300) true false)).isActive
        = true ∧
      (SessionKeeper.handleMessage
        ⟨false, none, [(3, 42)], none, false⟩
        (SessionKeeper.Request.mk "start" "click" [".btn-refresh"] (.int 300) true false)).config =
        some
          { mode := "click"
            selectors := [".btn-refresh"]
            interval := .int 300
            notifyOnChange := true
            stopOnChange := false } ∧
      (SessionKeeper.handleMessage
        ⟨false, none, [(3, 42)], none, false⟩
        (SessionKeeper.Request.mk "start" "click" [".btn-refresh"] (.int 300) true false)).contentHashes
        = []) :=
  ⟨rfl, C1_start_persists _ _ rfl⟩

/-- Claim C3: after the background message handler processes a stop
message, the persisted state has `isActive = false`, no scheduled timer
remains armed, and the content-fingerprint table is cleared. -/
theorem C3_stop_clears (s : SessionKeeper.SchedState) (req : SessionKeeper.Request)
    (h : req.action = "stop") :
    (SessionKeeper.handleMessage s req).isActive = false ∧
    (SessionKeeper.handleMessage s req).alarm = none ∧
    (SessionKeeper.handleMessage s req).contentHashes = [] := by
  simp [SessionKeeper.handleMessage, h, SessionKeeper.stopAction]

/-- Witness for C3 at a concrete stop message and a fully active state. -/
theorem C3_stop_clears_witness :
    (SessionKeeper.Request.mk "stop" "" [] (.int 0) false false).action = "stop" ∧
    ((SessionKeeper.handleMessage
        ⟨true, some ⟨"reload", [], .int 60, false, false⟩, [(1, 9)], some (.int 60), true⟩
        (SessionKeeper.Request.mk "stop" "" [] (.int 0) false false)).isActive = false ∧
      (SessionKeeper.handleMessage
        ⟨true, some ⟨"reload", [], .int 60, false, false⟩, [(1, 9)], some (.int 60), true⟩
        (SessionKeeper.Request.mk "stop" "" [] (.int 0) false false)).alarm = none ∧
      (SessionKeeper.handleMessage
        ⟨true, some ⟨"reload", [], .int 60, false, false⟩, [(1, 9)], some (.int 60), true⟩
        (SessionKeeper.Request.mk "stop" "" [] (.int 0) false false)).contentHashes = []) :=
  ⟨rfl, C3_stop_clears _ _ rfl⟩

/-- Claim C8: processing a stop message is idempotent on the persisted
state — for every starting state, processing stop twice yields the same
Inactive state (isActive = false, no timer, empty fingerprint table) as
processing it once. -/
theorem C8_stop_idempotent (s : SessionKeeper.SchedState) (req : SessionKeeper.Request)
    (h : req.action = "stop") :
    SessionKeeper.handleMessage (SessionKeeper.handleMessage s req) req =
      SessionKeeper.handleMessage s req ∧
    (SessionKeeper.handleMessage s req).isActive = false ∧
    (SessionKeeper.handleMessage s req).alarm = none ∧
    (SessionKeeper.handleMessage s req).contentHashes = [] := by
  simp [SessionKeeper.handleMessage, h, SessionKeeper.stopAction]

/-- Witness for C8 at a concrete stop message and active state. -/
theorem C8_stop_idempotent_witness :
    (SessionKeeper.Request.mk "stop" "" [] (.int 0) false false).action = "stop" ∧
    (SessionKeeper.handleMessage
        (SessionKeeper.handleMessage
          ⟨true, some ⟨"click", ["#a"], .int 30, true, true⟩, [(2, 7)], some (.int 30), true⟩
          (SessionKeeper.Request.mk "stop" "" [] (.int 0) false false))
        (SessionKeeper.Request.mk "stop" "" [] (.int 0) false false) =
      SessionKeeper.handleMessage
        ⟨true, some ⟨"click", ["#a"], .int 30, true, true⟩, [(2, 7)], some (.int 30), true⟩
        (SessionKeeper.Request.mk "stop" "" [] (.int 0) false false) ∧
      (SessionKeeper.handleMessage
        ⟨true, some ⟨"click", ["#a"], .int 30, true, true⟩, [(2, 7)], some (.int 30), true⟩
        (SessionKeeper.Request.mk "stop" "" [] (.int 0) false false)).isActive = false ∧
      (SessionKeeper.handleMessage
        ⟨true, some ⟨"click", ["#a"], .int 30, true, true⟩, [(2, 7)], some (.int 30), true⟩
        (SessionKeeper.Request.mk "stop" "" [] (.int 0) false false)).alarm = none ∧
      (SessionKeeper.handleMessage
        ⟨true, some ⟨"click", ["#a"], .int 30, true, true⟩, [(2, 7)], some (.int 30), true⟩
        (SessionKeeper.Request.mk "stop" "" [] (.int 0) false false)).contentHashes = []) :=
  ⟨rfl, C8_stop_idempotent _ _ rfl⟩

/-- Claim C2: for a tab whose stored fingerprint is defined, when the
deferred content check samples text whose hash differs from it: with
`notifyOnChange = true` and `stopOnChange = false`, exactly one
notification is emitted and the new hash is persisted as the new
baseline for the tab; with `stopOnChange = true`, the state transitions to Inactive
(the same effect as an explicit stop) and the new hash is not persisted. -/
theorem C2_change_detection (s : SessionKeeper.SchedState) (c : SessionKeeper.Config)
    (tabId : Nat) (text : List Nat) (oldH : Int)
    (hstored : SessionKeeper.lookupHash s.contentHashes tabId = some oldH)
    (hdiff : SessionKeeper.simpleHash text ≠ oldH) :
    (c.notifyOnChange = true → c.stopOnChange = false →
      (SessionKeeper.contentCheck s c s.contentHashes tabId (some text)).notifications =
        [SessionKeeper.changeNotice] ∧
      SessionKeeper.lookupHash
          (SessionKeeper.contentCheck s c s.contentHashes tabId (some text)).state.contentHashes
          tabId
        = some (SessionKeeper.simpleHash text)) ∧
    (c.stopOnChange = true →
      (SessionKeeper.contentCheck s c s.contentHashes tabId (some text)).state =
        SessionKeeper.stopAction s ∧
      (SessionKeeper.contentCheck s c s.contentHashes tabId (some text)).state.contentHashes
        = []) := by
  have hchanged :
      SessionKeeper.lookupHash s.contentHashes tabId ≠ none ∧
      SessionKeeper.lookupHash s.contentHashes tabId ≠ some (SessionKeeper.simpleHash text) := by
    rw [hstored]
    refine ⟨by simp, ?_⟩
    simp only [ne_eq, Option.some.injEq]
    exact fun he => hdiff he.symm
  constructor
  · intro hn hstop
    rw [SessionKeeper.contentCheck]
    simp only [if_pos hchanged, hn, hstop, if_pos rfl, if_neg Bool.false_ne_true]
    exact ⟨rfl, SessionKeeper.lookupHash_setHash_self _ _ _⟩
  · intro hstop
    rw [SessionKeeper.contentCheck]
    simp only [if_pos hchanged, hstop, if_pos rfl]
    exact ⟨rfl, rfl⟩

/-- Witness for C2: the same pre-state with stored fingerprint 5 on tab 7
and a sample hashing to 96354, run once with notify-only flags and once
with stop-on-change. -/
theorem C2_change_detection_witness :
    SessionKeeper.lookupHash
        (SessionKeeper.SchedState.mk true
          (some ⟨"reload", [], .int 30, true, false⟩) [(7, 5)] (some (.int 30)) true).contentHashes
        7 = some 5 ∧
    SessionKeeper.simpleHash [97, 98, 99] ≠ 5 ∧
    ((SessionKeeper.contentCheck
          (SessionKeeper.SchedState.mk true
            (some ⟨"reload", [], .int 30, true, false⟩) [(7, 5)] (some (.int 30)) true)
          ⟨"reload", [], .int 30, true, false⟩ [(7, 5)] 7 (some [97, 98, 99])).notifications =
        [SessionKeeper.changeNotice] ∧
      SessionKeeper.lookupHash
          (SessionKeeper.contentCheck
            (SessionKeeper.SchedState.mk true
              (some ⟨"reload", [], .int 30, true, false⟩) [(7, 5)] (some (.int 30)) true)
            ⟨"reload", [], .int 30, true, false⟩ [(7, 5)] 7
            (some [97, 98, 99])).state.contentHashes 7
        = some (SessionKeeper.simpleHash [97, 98, 99])) ∧
    ((SessionKeeper.contentCheck
          (SessionKeeper.SchedState.mk true
            (some ⟨"reload", [], .int 30, true, true⟩) [(7, 5)] (some (.int 30)) true)
          ⟨"reload", [], .int 30, true, true⟩ [(7, 5)] 7 (some [97, 98, 99])).state =
        SessionKeeper.stopAction
          (SessionKeeper.SchedState.mk true
            (some ⟨"reload", [], .int 30, true, true⟩) [(7, 5)] (some (.int 30)) true) ∧
      (SessionKeeper.contentCheck
          (SessionKeeper.SchedState.mk true
            (some ⟨"reload", [], .int 30, true, true⟩) [(7, 5)] (some (.int 30)) true)
          ⟨"reload", [], .int 30, true, true⟩ [(7, 5)] 7
          (some [97, 98, 99])).state.contentHashes = []) :=
  ⟨by decide, by decide,
    (C2_change_detection _ _ 7 [97, 98, 99] 5 (by decide) (by decide)).1 rfl rfl,
    (C2_change_detection _ _ 7 [97, 98, 99] 5 (by decide) (by decide)).2 rfl⟩

/-- Claim C4: a submitted popup form whose parsed interval lies outside
[5, 18000], or whose mode is click with zero non-empty selectors after
splitting on commas and trimming, is rejected: validateForm returns an
inline error and handleStart sends no message. -/
theorem C4_popup_rejects (form : SessionKeeper.FormInput)
    (h : (∃ n, SessionKeeper.parseIntJS form.intervalText = some n ∧ (n < 5 ∨ 18000 < n)) ∨
         (form.mode = "click" ∧ SessionKeeper.splitSelectors form.selectorsText = [])) :
    (∃ msg, SessionKeeper.validateForm form = .invalid msg) ∧
    SessionKeeper.handleStart form = none := by
  have hinv : ∃ msg, SessionKeeper.validateForm form = .invalid msg := by
    unfold SessionKeeper.validateForm
    rcases h with ⟨n, hp, hn⟩ | ⟨hm, hs⟩
    · simp only [hp]
      simp only [SessionKeeper.JSNum.ltInt, SessionKeeper.JSNum.gtInt, decide_eq_true_eq]
      split_ifs with h1 h2 h3
      · exact ⟨_, rfl⟩
      · exact ⟨_, rfl⟩
      · exact ⟨_, rfl⟩
      · exact absurd hn (by omega)
    · cases hp : SessionKeeper.parseIntJS form.intervalText with
      | none =>
          refine ⟨"Please provide at least one CSS selector for click mode.", ?_⟩
          simp [hp, SessionKeeper.JSNum.ltInt, SessionKeeper.JSNum.gtInt, hm, hs]
      | some n =>
          simp only [hp]
          simp only [SessionKeeper.JSNum.ltInt, SessionKeeper.JSNum.gtInt, decide_eq_true_eq]
          split_ifs with h1 h2 h3
          · exact ⟨_, rfl⟩
          · exact ⟨_, rfl⟩
          · exact ⟨_, rfl⟩
          · exact absurd h3 (by simp [hm, hs])
  refine ⟨hinv, ?_⟩
  obtain ⟨msg, hmsg⟩ := hinv
  unfold SessionKeeper.handleStart
  rw [hmsg]

/-- Witness for C4: the form with interval text "3" in reload mode. -/
theorem C4_popup_rejects_witness :
    ((∃ n, SessionKeeper.parseIntJS
        (SessionKeeper.FormInput.mk "reload" "3" "" false false).intervalText = some n ∧
        (n < 5 ∨ 18000 < n)) ∨
      ((SessionKeeper.FormInput.mk "reload" "3" "" false false).mode = "click" ∧
        SessionKeeper.splitSelectors
          (SessionKeeper.FormInput.mk "reload" "3" "" false false).selectorsText = [])) ∧
    ((∃ msg, SessionKeeper.validateForm (SessionKeeper.FormInput.mk "reload" "3" "" false false)
        = .invalid msg) ∧
      SessionKeeper.handleStart (SessionKeeper.FormInput.mk "reload" "3" "" false false) = none) :=
  ⟨Or.inl ⟨3, by decide, Or.inl (by decide)⟩,
    C4_popup_rejects _ (Or.inl ⟨3, by decide, Or.inl (by decide)⟩)⟩

/-- Claim C10: when the text of the interval field does not parse to a number
(parseInt yields NaN), both range checks are false, so validation passes
(given the mode/selector check passes) and a start message carrying a NaN
interval is sent. -/
theorem C10_nan_interval (form : SessionKeeper.FormInput)
    (hnan : SessionKeeper.parseIntJS form.intervalText = none)
    (hsel : form.mode = "click" → SessionKeeper.splitSelectors form.selectorsText ≠ []) :
    SessionKeeper.validateForm form =
      .valid
        { mode := form.mode
          selectors := SessionKeeper.splitSelectors form.selectorsText
          interval := .nan
          notifyOnChange := form.notifyOnChange
          stopOnChange := form.stopOnChange } ∧
    SessionKeeper.handleStart form =
      some
        { action := "start"
          mode := form.mode
          selectors := SessionKeeper.splitSelectors form.selectorsText
          interval := .nan
          notifyOnChange := form.notifyOnChange
          stopOnChange := form.stopOnChange } := by
  have hcond : ¬(decide (form.mode = "click") &&
      (SessionKeeper.splitSelectors form.selectorsText).isEmpty) = true := by
    by_cases hm : form.mode = "click"
    · simp [hm, List.isEmpty_iff, hsel hm]
    · simp [hm]
  have hval : SessionKeeper.validateForm form =
      .valid
        { mode := form.mode
          selectors := SessionKeeper.splitSelectors form.selectorsText
          interval := .nan
          notifyOnChange := form.notifyOnChange
          stopOnChange := form.stopOnChange } := by
    unfold SessionKeeper.validateForm
    simp only [hnan, SessionKeeper.JSNum.ltInt, SessionKeeper.JSNum.gtInt,
      Bool.false_eq_true, if_false]
    rw [if_neg hcond]
  refine ⟨hval, ?_⟩
  unfold SessionKeeper.handleStart
  rw [hval]

/-- Witness for C10: interval text "abc" in reload mode sends a NaN start
message. -/
theorem C10_nan_interval_witness :
    SessionKeeper.parseIntJS
        (SessionKeeper.FormInput.mk "reload" "abc" "" true false).intervalText = none ∧
    ((SessionKeeper.FormInput.mk "reload" "abc" "" true false).mode = "click" →
      SessionKeeper.splitSelectors
        (SessionKeeper.FormInput.mk "reload" "abc" "" true false).selectorsText ≠ []) ∧
    (SessionKeeper.validateForm (SessionKeeper.FormInput.mk "reload" "abc" "" true false) =
        .valid
          { mode := "reload"
            selectors := []
            interval := .nan
            notifyOnChange := true
            stopOnChange := false } ∧
      SessionKeeper.handleStart (SessionKeeper.FormInput.mk "reload" "abc" "" true false) =
        some
          { action := "start"
            mode := "reload"
            selectors := []
            interval := .nan
            notifyOnChange := true
            stopOnChange := false }) :=
  ⟨by decide, by decide, by
    have h := C10_nan_interval (SessionKeeper.FormInput.mk "reload" "abc" "" true false)
      (by decide) (by decide)
    simpa [show SessionKeeper.splitSelectors "" = [] from by decide] using h⟩

/-- Claim C5: every selector in a delivered list is attempted
independently — the run of clicks is the own outcome of each selector (the
first matching element, if any), and a selector that matches nothing or
whose lookup throws contributes nothing while all selectors before and
after it are still attempted (no short-circuit, per-selector failure
isolation). -/
theorem C5_selector_isolation (dom : String → SessionKeeper.QueryOutcome)
    (xs ys : List String) (sel : String)
    (h : SessionKeeper.clickOutcome dom sel = none) :
    SessionKeeper.clickElements dom (xs ++ sel :: ys) =
      xs.filterMap (SessionKeeper.clickOutcome dom) ++
        ys.filterMap (SessionKeeper.clickOutcome dom) := by
  have hne : (xs ++ sel :: ys).isEmpty = false := by
    cases xs <;> simp [List.isEmpty]
  rw [SessionKeeper.clickElements, hne]
  simp only [Bool.false_eq_true, if_false]
  rw [SessionKeeper.clickLoop_eq_filterMap, List.filterMap_append, List.filterMap_cons, h]

/-- Witness for C5: on a page where `.ok1` and `.ok2` match elements 1
and 2, `.gone` matches nothing and `:bad` throws, the list
[".ok1", ":bad", ".gone", ".ok2"] still clicks 1 and 2. -/
theorem C5_selector_isolation_witness :
    SessionKeeper.clickOutcome
        (fun sel =>
          if sel = ".ok1" then .found 1
          else if sel = ".ok2" then .found 2
          else if sel = ":bad" then .err "not a valid selector"
          else .missing)
        ":bad" = none ∧
    SessionKeeper.clickElements
        (fun sel =>
          if sel = ".ok1" then .found 1
          else if sel = ".ok2" then .found 2
          else if sel = ":bad" then .err "not a valid selector"
          else .missing)
        ([".ok1"] ++ ":bad" :: [".gone", ".ok2"]) =
      [".ok1"].filterMap
          (SessionKeeper.clickOutcome
            (fun sel =>
              if sel = ".ok1" then .found 1
              else if sel = ".ok2" then .found 2
              else if sel = ":bad" then .err "not a valid selector"
              else .missing)) ++
        [".gone", ".ok2"].filterMap
          (SessionKeeper.clickOutcome
            (fun sel =>
              if sel = ".ok1" then .found 1
              else if sel = ".ok2" then .found 2
              else if sel = ":bad" then .err "not a valid selector"
              else .missing)) :=
  ⟨by decide,
    C5_selector_isolation _ [".ok1"] [".gone", ".ok2"] ":bad" (by decide)⟩

/-- Claim C6: on a firing of the named alarm of the scheduler, when a stored
config with a (truthy) interval is present, exactly one next occurrence
is armed with delay equal to the stored interval; when no config is
present, the scheduler transitions to Inactive (timer cleared,
isActive = false, fingerprint table cleared) and no next occurrence is
armed. -/
theorem C6_alarm_rearm (s : SessionKeeper.SchedState) (tab : Option Nat) :
    (∀ c, s.config = some c → c.interval.truthy = true →
        (SessionKeeper.alarmFire s tab).alarm = some c.interval) ∧
    (s.config = none →
        (SessionKeeper.alarmFire s tab).isActive = false ∧
        (SessionKeeper.alarmFire s tab).alarm = none ∧
        (SessionKeeper.alarmFire s tab).contentHashes = []) := by
  constructor
  · intro c hc ht
    cases tab <;>
      simp [SessionKeeper.alarmFire, SessionKeeper.handleAlarm,
        SessionKeeper.performActionStep, SessionKeeper.ALARM_NAME, hc, ht]
  · intro hc
    cases tab <;>
      simp [SessionKeeper.alarmFire, SessionKeeper.handleAlarm,
        SessionKeeper.performActionStep, SessionKeeper.ALARM_NAME, hc,
        SessionKeeper.stopAction]

/-- Witness for C6: one firing with a 30-second config re-arms for 30
seconds; one firing with no config lands Inactive and unarmed. -/
theorem C6_alarm_rearm_witness :
    ((SessionKeeper.SchedState.mk true (some ⟨"reload", [], .int 30, false, false⟩)
          [(1, 4)] (some (.int 30)) true).config
        = some ⟨"reload", [], .int 30, false, false⟩ ∧
      SessionKeeper.JSNum.truthy (.int 30) = true ∧
      (SessionKeeper.alarmFire
          (SessionKeeper.SchedState.mk true (some ⟨"reload", [], .int 30, false, false⟩)
            [(1, 4)] (some (.int 30)) true) (some 1)).alarm = some (.int 30)) ∧
    ((SessionKeeper.SchedState.mk true none [(1, 4)] (some (.int 30)) true).config = none ∧
      (SessionKeeper.alarmFire
          (SessionKeeper.SchedState.mk true none [(1, 4)] (some (.int 30)) true)
          (some 1)).isActive = false ∧
      (SessionKeeper.alarmFire
          (SessionKeeper.SchedState.mk true none [(1, 4)] (some (.int 30)) true)
          (some 1)).alarm = none ∧
      (SessionKeeper.alarmFire
          (SessionKeeper.SchedState.mk true none [(1, 4)] (some (.int 30)) true)
          (some 1)).contentHashes = []) :=
  ⟨⟨rfl, rfl,
      (C6_alarm_rearm
          (SessionKeeper.SchedState.mk true (some ⟨"reload", [], .int 30, false, false⟩)
            [(1, 4)] (some (.int 30)) true) (some 1)).1
        ⟨"reload", [], .int 30, false, false⟩ rfl rfl⟩,
    ⟨rfl,
      (C6_alarm_rearm
          (SessionKeeper.SchedState.mk true none [(1, 4)] (some (.int 30)) true)
          (some 1)).2 rfl⟩⟩

/-- Claim C7 as stated is false: the invariant "isActive implies config
present and timer armed" is not preserved by every operation.  At the
invariant-satisfying state with `isActive = true` and a stored config
whose interval is 0, a firing of the one-shot alarm consumes it, and the
`config?.interval` guard (0 is falsy) skips re-arming while leaving
`isActive = true` — so afterwards the timer is gone but the state is
still Active. -/
theorem C7_counterexample :
    ¬ ∀ (s : SessionKeeper.SchedState) (op : SessionKeeper.Op),
        SessionKeeper.inv s → SessionKeeper.inv (SessionKeeper.step s op) := by
  intro hall
  exact absurd
    (hall
      (SessionKeeper.SchedState.mk true (some ⟨"reload", [], .int 0, false, false⟩)
        [] (some (.int 0)) true)
      (.fire none) (by decide))
    (by decide)

/-- Claim C7 amended: the config-present half of the invariant is
preserved unconditionally by every operation; the full invariant
(isActive implies config present and timer armed) is preserved
unconditionally by every runtime message (start, stop, or any other) and
by the install/startup initialization, and by an alarm firing provided
any stored config has a truthy (nonzero, non-NaN) interval — which every
popup-validated config (interval in [5, 18000]) satisfies. -/
theorem C7_invariant_preserved (s : SessionKeeper.SchedState) (op : SessionKeeper.Op) :
    ((s.isActive = true → s.config.isSome = true) →
      ((SessionKeeper.step s op).isActive = true →
        (SessionKeeper.step s op).config.isSome = true)) ∧
    (∀ req, op = .msg req → SessionKeeper.inv s →
      SessionKeeper.inv (SessionKeeper.step s op)) ∧
    (op = .init → SessionKeeper.inv s →
      SessionKeeper.inv (SessionKeeper.step s op)) ∧
    (∀ tab, op = .fire tab → SessionKeeper.inv s →
      (∀ c, s.config = some c → c.interval.truthy = true) →
      SessionKeeper.inv (SessionKeeper.step s op)) := by
  refine ⟨SessionKeeper.config_present_step s op, ?_, ?_, ?_⟩
  · rintro req rfl hinv
    exact SessionKeeper.inv_handleMessage s req hinv
  · rintro rfl hinv
    exact SessionKeeper.inv_stopAction s
  · rintro tab rfl hinv htr
    exact SessionKeeper.inv_alarmFire s tab hinv htr

/-- Witness for the amended theorem of C7: from an Active 30-second
state, a stop message and the initialization preserve the invariant
unconditionally, an alarm firing preserves it under the truthy-interval
proviso, and the config-present half survives the firing. -/
theorem C7_invariant_preserved_witness :
    SessionKeeper.inv
      (SessionKeeper.step
        (SessionKeeper.SchedState.mk true (some ⟨"reload", [], .int 30, false, false⟩)
          [] (some (.int 30)) true)
        (.msg (SessionKeeper.Request.mk "stop" "" [] (.int 0) false false))) ∧
    SessionKeeper.inv
      (SessionKeeper.step
        (SessionKeeper.SchedState.mk true (some ⟨"reload", [], .int 30, false, false⟩)
          [] (some (.int 30)) true) .init) ∧
    SessionKeeper.inv
      (SessionKeeper.step
        (SessionKeeper.SchedState.mk true (some ⟨"reload", [], .int 30, false, false⟩)
          [] (some (.int 30)) true) (.fire none)) ∧
    ((SessionKeeper.step
        (SessionKeeper.SchedState.mk true (some ⟨"reload", [], .int 30, false, false⟩)
          [] (some (.int 30)) true) (.fire none)).isActive = true →
      (SessionKeeper.step
        (SessionKeeper.SchedState.mk true (some ⟨"reload", [], .int 30, false, false⟩)
          [] (some (.int 30)) true) (.fire none)).config.isSome = true) :=
  ⟨(C7_invariant_preserved
      (SessionKeeper.SchedState.mk true (some ⟨"reload", [], .int 30, false, false⟩)
        [] (some (.int 30)) true)
      (.msg (SessionKeeper.Request.mk "stop" "" [] (.int 0) false false))).2.1
      (SessionKeeper.Request.mk "stop" "" [] (.int 0) false false) rfl (by decide),
    (C7_invariant_preserved
      (SessionKeeper.SchedState.mk true (some ⟨"reload", [], .int 30, false, false⟩)
        [] (some (.int 30)) true) .init).2.2.1 rfl (by decide),
    (C7_invariant_preserved
      (SessionKeeper.SchedState.mk true (some ⟨"reload", [], .int 30, false, false⟩)
        [] (some (.int 30)) true) (.fire none)).2.2.2 none rfl (by decide)
      (by intro c hc; injection hc with h; cases h; rfl),
    (C7_invariant_preserved
      (SessionKeeper.SchedState.mk true (some ⟨"reload", [], .int 30, false, false⟩)
        [] (some (.int 30)) true) (.fire none)).1 (by intro _; rfl)⟩
